import Mathlib

/-!
Verification of the trip monitoring and alert-dispatch engine of the
bike-share-alerts backend.

This file is a shallow embedding of the core logic in
backend/api/routers/trips.py and backend/api/routers/cron.py:
the persistent store is an explicit record of tables, SQL queries become
list operations over those tables, timestamps are abstract instants
(natural numbers), and the push transport (apns) is a parameter giving
the outcome of each dispatch attempt.  Python integers are modelled by
Int where arithmetic or comparisons matter, identifiers by Nat, strings
by String.
-/

namespace BikeShare

/-- Trip lifecycle states (the state column of the trips table). -/
inductive TripState where
  | STARTING
  | CYCLING
  | DOCKING
  | COMPLETE
  deriving DecidableEq, Repr

/-- The state string reported in API responses and error details. -/
def stateName : TripState → String
  | .STARTING => "STARTING"
  | .CYCLING => "CYCLING"
  | .DOCKING => "DOCKING"
  | .COMPLETE => "COMPLETE"

/-- A row of the trips table (the columns the core logic touches). -/
structure Trip where
  trip_id : Nat
  route_id : Nat
  user_email : String
  state : TripState
  focused_station_id : Option Nat := none
  last_bike_count : Option Int := none
  last_dock_count : Option Int := none
  last_checked_at : Option Nat := none
  completed_at : Option Nat := none
  cycling_started_at : Option Nat := none
  docking_started_at : Option Nat := none
  last_known_lat : Option Int := none
  last_known_lon : Option Int := none
  last_location_update_at : Option Nat := none
  deriving DecidableEq, Repr

/-- A row of the routes table (the columns the core logic touches).
target_departure_time is modelled as an optional (hour, minute) pair. -/
structure Route where
  route_id : Nat
  user_email : String
  is_active : Bool
  days_of_week : List Nat
  target_time : Option (Nat × Nat)
  alert_lead_time_minutes : Int
  start_station_ids : List Nat
  end_station_ids : List Nat
  bikes_threshold : Int
  docks_threshold : Int
  deriving DecidableEq, Repr

/-- A row of the current_station_status projection (latest observation
per station). -/
structure StationStatus where
  station_id : Nat
  num_bikes_available : Int
  num_docks_available : Int
  deriving DecidableEq, Repr

/-- The persistent store: users are (user_email, device_token) rows,
stations are (station_id, name) rows.  next_trip_id models the
sequence generating trip primary keys. -/
structure DB where
  routes : List Route
  trips : List Trip
  statuses : List StationStatus
  users : List (String × Option String)
  stations : List (Nat × String)
  next_trip_id : Nat
  deriving DecidableEq, Repr

/-- The reference instant of a heartbeat tick: Python weekday
(0 = Monday), time of day, and the abstract timestamp written into
last_checked_at / completed_at / etc. by datetime.now(UTC). -/
structure Tick where
  weekday_python : Nat
  hour : Nat
  minute : Nat
  timestamp : Nat
  deriving DecidableEq, Repr

/-- A push notification actually handed to the transport
(apns.send_bike_alert / apns.send_dock_alert). -/
inductive Alert where
  | bike (device_token : String) (station_name : String) (count : Int) (station_id : Nat)
  | dock (device_token : String) (station_name : String) (count : Int) (station_id : Nat)
      (level : Nat)
  deriving DecidableEq, Repr

/-- The alert level carried by a dispatched alert (bike alerts carry none,
reported as 0). -/
def alertLevel : Alert → Nat
  | .bike _ _ _ _ => 0
  | .dock _ _ _ _ lvl => lvl

/-- The focused station id carried by a dispatched alert. -/
def alertStation : Alert → Nat
  | .bike _ _ _ sid => sid
  | .dock _ _ _ sid _ => sid

/-- Errors raised by the trip transition endpoints
(HTTPException 404 / 400 in trips.py). -/
inductive ApiError where
  | notFound
  | invalidStateTransition (current : String)
  deriving DecidableEq, Repr

/-- The station-status query of check_start_stations / check_end_stations:
SELECT station_id, count FROM current_station_status WHERE station_id =
ANY(ids) ORDER BY array_position(ids, station_id).  Station ids of a route
are unique (validated at route creation), so the result is the id list in
preference order restricted to stations having a status row, paired with
the projected count. -/
def stationQuery (statuses : List StationStatus) (ids : List Nat)
    (proj : StationStatus → Int) : List (Nat × Int) :=
  ids.filterMap (fun sid =>
    (statuses.find? (fun s => decide (s.station_id = sid))).map (fun s => (sid, proj s)))

/-- The focus-selection loop of check_start_stations (trips.py lines
177-189), with the accumulator (new_focused_station, new_bike_count)
made explicit; a station with count at or above the threshold ends the
scan. -/
def startScanLoop (threshold : Int) (acc : Option Nat × Int) :
    List (Nat × Int) → Option Nat × Int
  | [] => acc
  | (station_id, num_bikes) :: rest =>
    if threshold ≤ num_bikes then (some station_id, num_bikes)
    else
      startScanLoop threshold
        (if acc.1 = none then (some station_id, num_bikes) else acc) rest

/-- Start-side focus selection: new_focused_station and new_bike_count
computed by check_start_stations from the ordered station statuses. -/
def startSelect (threshold : Int) (l : List (Nat × Int)) : Option Nat × Int :=
  startScanLoop threshold (none, 0) l

/-- The focus-selection loop of check_end_stations (trips.py lines
280-288): scan for the first station meeting the docks threshold. -/
def endScanLoop (threshold : Int) : List (Nat × Int) → Option (Nat × Int)
  | [] => none
  | (station_id, num_docks) :: rest =>
    if threshold ≤ num_docks then some (station_id, num_docks)
    else endScanLoop threshold rest

/-- End-side focus selection: the threshold scan followed by the
fallback to the first station when nothing qualified (trips.py lines
290-293). -/
def endSelect (threshold : Int) (l : List (Nat × Int)) : Option Nat × Int :=
  match endScanLoop threshold l with
  | some (station_id, num_docks) => (some station_id, num_docks)
  | none =>
    match l with
    | [] => (none, 0)
    | (station_id, num_docks) :: _ => (some station_id, num_docks)

/-- The alert decision shared by check_start_stations (lines 191-199) and
check_end_stations (lines 295-303): alert on first check (previous focus
null), on focus change, or on count change (Python != on possibly-None
values). -/
def shouldAlert (focused_station_id : Option Nat) (last_count : Option Int)
    (new_focused : Option Nat) (new_count : Int) : Bool :=
  if focused_station_id = none then true
  else decide (new_focused ≠ focused_station_id) || decide (some new_count ≠ last_count)

/-- The alert-level computation of send_dock_alert (trips.py lines
428-431): Python next((i for i, (sid, _) in enumerate(all_stations) if
sid == focused_station_id), 0), split into the generator part here and
getD 0 at the use site. -/
def alertLevelCalc (focused : Nat) : List (Nat × Int) → Option Nat
  | [] => none
  | p :: rest =>
    if p.1 = focused then some 0 else (alertLevelCalc focused rest).map (· + 1)

/-- Outcome of a push dispatch attempt against the external transport:
ok, or the exception message raised by apns. -/
abbrev PushOutcome := Except String Unit

/-- send_bike_alert (trips.py lines 342-385): no-op when the focused
station is null; otherwise look up the device token (absent or empty
token is logged and skipped), resolve the station name, and attempt the
push, logging but swallowing a transport failure.  Returns (log lines,
alerts actually dispatched). -/
def sendBikeAlert (db : DB) (user_email : String) (route_id : Nat)
    (focused_station_id : Option Nat) (bike_count : Int) (threshold : Int)
    (all_stations : List (Nat × Int)) (push : PushOutcome) : List String × List Alert :=
  match focused_station_id with
  | none => ([], [])
  | some fsid =>
    match db.users.find? (fun u => decide (u.1 = user_email)) with
    | none => (["No device token for user " ++ user_email], [])
    | some (_, tokOpt) =>
      match tokOpt with
      | none => (["No device token for user " ++ user_email], [])
      | some device_token =>
        if device_token = "" then (["No device token for user " ++ user_email], [])
        else
          let station_name :=
            match db.stations.find? (fun s => decide (s.1 = fsid)) with
            | some s => s.2
            | none => "Station " ++ toString fsid
          match push with
          | .ok _ => ([], [Alert.bike device_token station_name bike_count fsid])
          | .error e =>
            (["[ERROR] Failed to send bike alert to " ++ user_email ++ ": " ++ e], [])

/-- send_dock_alert (trips.py lines 388-439): as sendBikeAlert, but the
dispatched alert carries the alert level computed from the position of
the focused station in all_stations (the ordered observation list). -/
def sendDockAlert (db : DB) (user_email : String) (route_id : Nat)
    (focused_station_id : Option Nat) (dock_count : Int) (threshold : Int)
    (all_stations : List (Nat × Int)) (push : PushOutcome) :
    List String × List Alert :=
  match focused_station_id with
  | none => ([], [])
  | some fsid =>
    match db.users.find? (fun u => decide (u.1 = user_email)) with
    | none => (["No device token for user " ++ user_email], [])
    | some (_, tokOpt) =>
      match tokOpt with
      | none => (["No device token for user " ++ user_email], [])
      | some device_token =>
        if device_token = "" then (["No device token for user " ++ user_email], [])
        else
          let station_name :=
            match db.stations.find? (fun s => decide (s.1 = fsid)) with
            | some s => s.2
            | none => "Station " ++ toString fsid
          let alert_level := (alertLevelCalc fsid all_stations).getD 0
          match push with
          | .ok _ =>
            ([], [Alert.dock device_token station_name dock_count fsid alert_level])
          | .error e =>
            (["[ERROR] Failed to send dock alert to " ++ user_email ++ ": " ++ e], [])

/-- Result of one evaluation of a trip: the store after the update, the
alerts dispatched, and the log lines emitted. -/
structure CheckResult where
  db : DB
  alerts : List Alert
  logs : List String
  deriving DecidableEq, Repr

/-- check_start_stations (trips.py lines 135-235): load the route
(vanished route is a silent no-op), query bike counts for the start
stations in preference order, select the focus, and either persist
focus/count/last_checked_at and dispatch a bike alert, or persist only
last_checked_at. -/
def checkStartStations (db : DB) (trip_id : Nat) (route_id : Nat) (user_email : String)
    (focused_station_id : Option Nat) (last_bike_count : Option Int) (now : Nat)
    (push : PushOutcome) : CheckResult :=
  match db.routes.find? (fun r => decide (r.route_id = route_id)) with
  | none => ⟨db, [], []⟩
  | some r =>
    let station_statuses := stationQuery db.statuses r.start_station_ids (·.num_bikes_available)
    let sel := startSelect r.bikes_threshold station_statuses
    if shouldAlert focused_station_id last_bike_count sel.1 sel.2 then
      let db' := { db with trips := db.trips.map (fun t =>
        if t.trip_id = trip_id then
          { t with focused_station_id := sel.1, last_bike_count := some sel.2,
                   last_checked_at := some now }
        else t) }
      let sent := sendBikeAlert db' user_email route_id sel.1 sel.2 r.bikes_threshold
        station_statuses push
      ⟨db', sent.2, sent.1⟩
    else
      let db' := { db with trips := db.trips.map (fun t =>
        if t.trip_id = trip_id then { t with last_checked_at := some now } else t) }
      ⟨db', [], []⟩

/-- check_end_stations (trips.py lines 238-339): the end-side mirror,
over end stations, dock counts and docks threshold, dispatching dock
alerts. -/
def checkEndStations (db : DB) (trip_id : Nat) (route_id : Nat) (user_email : String)
    (focused_station_id : Option Nat) (last_dock_count : Option Int) (now : Nat)
    (push : PushOutcome) : CheckResult :=
  match db.routes.find? (fun r => decide (r.route_id = route_id)) with
  | none => ⟨db, [], []⟩
  | some r =>
    let station_statuses := stationQuery db.statuses r.end_station_ids (·.num_docks_available)
    let sel := endSelect r.docks_threshold station_statuses
    if shouldAlert focused_station_id last_dock_count sel.1 sel.2 then
      let db' := { db with trips := db.trips.map (fun t =>
        if t.trip_id = trip_id then
          { t with focused_station_id := sel.1, last_dock_count := some sel.2,
                   last_checked_at := some now }
        else t) }
      let sent := sendDockAlert db' user_email route_id sel.1 sel.2 r.docks_threshold
        station_statuses push
      ⟨db', sent.2, sent.1⟩
    else
      let db' := { db with trips := db.trips.map (fun t =>
        if t.trip_id = trip_id then { t with last_checked_at := some now } else t) }
      ⟨db', [], []⟩

/-- The candidate query of activate_scheduled_routes (trips.py lines
50-61): active routes with a target departure time, scheduled for the
tick's weekday (remapped to 0 = Sunday), whose owner has no open
(non-completed) trip at query time. -/
def activationCandidates (db : DB) (tick : Tick) : List Route :=
  db.routes.filter (fun r =>
    r.is_active &&
    decide ((db.trips.find? (fun t =>
      decide (t.user_email = r.user_email ∧ t.completed_at = none))) = none) &&
    r.days_of_week.contains ((tick.weekday_python + 1) % 7) &&
    decide (r.target_time ≠ none))

/-- The per-route activation window test of activate_scheduled_routes
(trips.py lines 66-73): alert_minutes <= current_minutes <
target_minutes + 60 in same-day minute arithmetic. -/
def routeInWindow (tick : Tick) (r : Route) : Bool :=
  match r.target_time with
  | none => false
  | some (h, m) =>
    let target_minutes : Int := (h : Int) * 60 + (m : Int)
    let alert_minutes : Int := target_minutes - r.alert_lead_time_minutes
    let current_minutes : Int := (tick.hour : Int) * 60 + (tick.minute : Int)
    decide (alert_minutes ≤ current_minutes ∧ current_minutes < target_minutes + 60)

/-- Result of the activation phase: the store afterwards, the activated
count returned by activate_scheduled_routes, the (trip_id, route_id)
pairs of the trips it created, the trip ids it evaluated (one
check_start_stations call each), and the alerts/logs produced. -/
structure ActivationResult where
  db : DB
  activated : Nat
  created : List (Nat × Nat)
  evals : List Nat
  alerts : List Alert
  logs : List String
  deriving DecidableEq, Repr

/-- The trip row inserted by the activation loop: INSERT INTO trips
(route_id, user_email, state) VALUES (. . 'STARTING'), every other
column at its NULL default, keyed by the next trip id. -/
def newStartingTrip (db : DB) (r : Route) : Trip :=
  { trip_id := db.next_trip_id, route_id := r.route_id, user_email := r.user_email,
    state := .STARTING }

/-- The store after that INSERT commits. -/
def insertTripDB (db : DB) (r : Route) : DB :=
  { db with
      trips := db.trips ++ [newStartingTrip db r],
      next_trip_id := db.next_trip_id + 1 }

/-- The activation loop of activate_scheduled_routes (trips.py lines
66-91) over the fetched candidates: for each candidate in the window,
insert a STARTING trip and immediately run its first start-station
evaluation with null focus and count. -/
def activateLoop (tick : Tick) (push : PushOutcome) :
    List Route → DB → ActivationResult
  | [], db => ⟨db, 0, [], [], [], []⟩
  | r :: rest, db =>
    if routeInWindow tick r then
      let c := checkStartStations (insertTripDB db r) db.next_trip_id r.route_id
        r.user_email none none tick.timestamp push
      let restRes := activateLoop tick push rest c.db
      ⟨restRes.db, restRes.activated + 1,
        (db.next_trip_id, r.route_id) :: restRes.created,
        db.next_trip_id :: restRes.evals, c.alerts ++ restRes.alerts,
        c.logs ++ restRes.logs⟩
    else activateLoop tick push rest db

/-- activate_scheduled_routes (trips.py lines 32-91): fetch the
candidates once, then run the activation loop. -/
def activateScheduledRoutes (db : DB) (tick : Tick) (push : PushOutcome) :
    ActivationResult :=
  activateLoop tick push (activationCandidates db tick) db

/-- The snapshot row fetched for each open trip by monitor_active_trips:
(trip_id, route_id, user_email, focused_station_id, last count). -/
abbrev SweepRow := Nat × Nat × String × Option Nat × Option Int

/-- The STARTING loop of monitor_active_trips (trips.py lines 108-112):
evaluate each snapshot row with check_start_stations, threading the
store. -/
def monitorStartLoop (now : Nat) (push : PushOutcome) :
    List SweepRow → DB → DB × List Nat × List Alert × List String
  | [], db => (db, [], [], [])
  | (tid, rid, email, fs, lc) :: rest, db =>
    let c := checkStartStations db tid rid email fs lc now push
    let r := monitorStartLoop now push rest c.db
    (r.1, tid :: r.2.1, c.alerts ++ r.2.2.1, c.logs ++ r.2.2.2)

/-- The DOCKING loop of monitor_active_trips (trips.py lines 123-127):
evaluate each snapshot row with check_end_stations. -/
def monitorDockLoop (now : Nat) (push : PushOutcome) :
    List SweepRow → DB → DB × List Nat × List Alert × List String
  | [], db => (db, [], [], [])
  | (tid, rid, email, fs, lc) :: rest, db =>
    let c := checkEndStations db tid rid email fs lc now push
    let r := monitorDockLoop now push rest c.db
    (r.1, tid :: r.2.1, c.alerts ++ r.2.2.1, c.logs ++ r.2.2.2)

/-- Result of the sweep phase: the store afterwards, the starting /
docking counts monitor_active_trips reports, the trip ids evaluated,
and alerts/logs. -/
structure SweepResult where
  db : DB
  starting : Nat
  docking : Nat
  evals : List Nat
  alerts : List Alert
  logs : List String
  deriving DecidableEq, Repr

/-- monitor_active_trips (trips.py lines 94-132): snapshot the open
STARTING trips and evaluate each, then snapshot the open DOCKING trips
(from the store as left by the first loop) and evaluate each. -/
def monitorActiveTrips (db : DB) (now : Nat) (push : PushOutcome) : SweepResult :=
  let startSnap := (db.trips.filter (fun t =>
    decide (t.completed_at = none ∧ t.state = TripState.STARTING))).map
    (fun t => ((t.trip_id, t.route_id, t.user_email, t.focused_station_id,
      t.last_bike_count) : SweepRow))
  let r1 := monitorStartLoop now push startSnap db
  let dockSnap := (r1.1.trips.filter (fun t =>
    decide (t.completed_at = none ∧ t.state = TripState.DOCKING))).map
    (fun t => ((t.trip_id, t.route_id, t.user_email, t.focused_station_id,
      t.last_dock_count) : SweepRow))
  let r2 := monitorDockLoop now push dockSnap r1.1
  ⟨r2.1, startSnap.length, dockSnap.length, r1.2.1 ++ r2.2.1,
    r1.2.2.1 ++ r2.2.2.1, r1.2.2.2 ++ r2.2.2.2⟩

/-- Result of one orchestrator heartbeat tick. -/
structure HeartbeatResult where
  db : DB
  activated : Nat
  starting : Nat
  docking : Nat
  created : List (Nat × Nat)
  evals : List Nat
  alerts : List Alert
  logs : List String
  deriving DecidableEq, Repr

/-- The /cron/heartbeat orchestrator (cron.py lines 12-35): activation
phase to completion, then the monitoring sweep, reporting the counts. -/
def heartbeat (db : DB) (tick : Tick) (push : PushOutcome) : HeartbeatResult :=
  let a := activateScheduledRoutes db tick push
  let m := monitorActiveTrips a.db tick.timestamp push
  ⟨m.db, a.activated, m.starting, m.docking, a.created, a.evals ++ m.evals,
    a.alerts ++ m.alerts, a.logs ++ m.logs⟩

/-- The open-trip lookup shared by the transition endpoints: SELECT ...
FROM trips WHERE trip_id = %s AND user_email = %s AND completed_at IS
NULL. -/
def findOpenTrip (db : DB) (trip_id : Nat) (user_email : String) : Option Trip :=
  db.trips.find? (fun t =>
    decide (t.trip_id = trip_id ∧ t.user_email = user_email ∧ t.completed_at = none))

/-- end_trip (trips.py lines 547-583): 404 when no open trip matches id
and caller; otherwise (no state guard) set state COMPLETE and
completed_at.  Returns the store and the state string of the response. -/
def endTrip (db : DB) (trip_id : Nat) (user_email : String) (now : Nat) :
    Except ApiError (DB × String) :=
  match findOpenTrip db trip_id user_email with
  | none => .error .notFound
  | some _ =>
    let db' : DB := { db with trips := db.trips.map (fun t =>
      if t.trip_id = trip_id then
        { t with state := .COMPLETE, completed_at := some now }
      else t) }
    .ok (db', "COMPLETE")

/-- The location payload of enter_docking_zone (numeric coordinates,
stored but never computed with). -/
structure LocationUpdate where
  lat : Int
  lon : Int
  deriving DecidableEq, Repr

/-- enter_docking_zone (trips.py lines 488-544): 404 when no open trip
matches; 400 reporting the current state unless it is CYCLING; otherwise
record DOCKING, location and timestamps, then immediately run one
end-station evaluation with null focus and count. -/
def enterDockingZone (db : DB) (trip_id : Nat) (location : LocationUpdate)
    (user_email : String) (now : Nat) (push : PushOutcome) :
    Except ApiError (DB × String × List Alert × List String) :=
  match findOpenTrip db trip_id user_email with
  | none => .error .notFound
  | some t =>
    if t.state = TripState.CYCLING then
      let db' : DB := { db with trips := db.trips.map (fun u =>
        if u.trip_id = trip_id then
          { u with state := .DOCKING, docking_started_at := some now,
                   last_known_lat := some location.lat,
                   last_known_lon := some location.lon,
                   last_location_update_at := some now }
        else u) }
      let c := checkEndStations db' trip_id t.route_id user_email none none now push
      .ok (c.db, "DOCKING", c.alerts, c.logs)
    else .error (.invalidStateTransition (stateName t.state))

/-- start_trip (trips.py lines 442-485): 404 when no open trip matches;
400 unless the state is STARTING; otherwise record CYCLING and
cycling_started_at. -/
def startTrip (db : DB) (trip_id : Nat) (user_email : String) (now : Nat) :
    Except ApiError (DB × String) :=
  match findOpenTrip db trip_id user_email with
  | none => .error .notFound
  | some t =>
    if t.state = TripState.STARTING then
      let db' : DB := { db with trips := db.trips.map (fun u =>
        if u.trip_id = trip_id then
          { u with state := .CYCLING, cycling_started_at := some now }
        else u) }
      .ok (db', "CYCLING")
    else .error (.invalidStateTransition (stateName t.state))

/-- The focus the spec describes: the first station in preference order
whose count meets the threshold, else the first station of the list. -/
def specFocusSelect (threshold : Int) (l : List (Nat × Int)) : Option Nat × Int :=
  match l.find? (fun p => decide (threshold ≤ p.2)) with
  | some p => (some p.1, p.2)
  | none =>
    match l with
    | [] => (none, 0)
    | p :: _ => (some p.1, p.2)

/-! ## Concrete instances used as witnesses and counterexamples -/

/-- A route watching one station on both sides, threshold 2. -/
def C1Wroute : Route :=
  { route_id := 1, user_email := "u", is_active := true, days_of_week := [0],
    target_time := none, alert_lead_time_minutes := 0,
    start_station_ids := [7000], end_station_ids := [7000],
    bikes_threshold := 2, docks_threshold := 2 }

/-- Store for the C1 witness: the open trip already focuses station 7000
with count 5, and the current observation still shows 5. -/
def C1Wdb : DB :=
  { routes := [C1Wroute],
    trips := [{ trip_id := 1, route_id := 1, user_email := "u", state := .STARTING,
                focused_station_id := some 7000, last_bike_count := some 5,
                last_dock_count := some 5 }],
    statuses := [⟨7000, 5, 5⟩],
    users := [("u", some "tok")],
    stations := [(7000, "Main St")],
    next_trip_id := 2 }

/-- A route whose watched stations have no observation rows. -/
def C2Croute : Route :=
  { route_id := 1, user_email := "u", is_active := true, days_of_week := [0],
    target_time := none, alert_lead_time_minutes := 0,
    start_station_ids := [5], end_station_ids := [6],
    bikes_threshold := 2, docks_threshold := 2 }

/-- Store for the C2 counterexample: first check of trip 1 (null focus),
device token registered, but current_station_status has no row for any
watched station. -/
def C2Cdb : DB :=
  { routes := [C2Croute],
    trips := [{ trip_id := 1, route_id := 1, user_email := "u", state := .STARTING }],
    statuses := [],
    users := [("u", some "tok")],
    stations := [],
    next_trip_id := 2 }

/-- Store for the C2 witness: first check with an observation present
and a registered device token. -/
def C2Wdb : DB :=
  { routes := [C2Croute],
    trips := [{ trip_id := 1, route_id := 1, user_email := "u", state := .STARTING }],
    statuses := [⟨5, 4, 4⟩, ⟨6, 3, 3⟩],
    users := [("u", some "tok")],
    stations := [(5, "A"), (6, "B")],
    next_trip_id := 2 }

/-- Route for the C10 witness (no watched station observed). -/
def C10Wroute : Route :=
  { route_id := 1, user_email := "u", is_active := true, days_of_week := [0],
    target_time := none, alert_lead_time_minutes := 0,
    start_station_ids := [5, 7], end_station_ids := [6],
    bikes_threshold := 2, docks_threshold := 2 }

/-- Store for the C10 witness: an open trip whose previous focus is
non-null, with an empty current_station_status. -/
def C10Wdb : DB :=
  { routes := [C10Wroute],
    trips := [{ trip_id := 1, route_id := 1, user_email := "u", state := .STARTING,
                focused_station_id := some 5, last_bike_count := some 3 }],
    statuses := [],
    users := [("u", some "tok")],
    stations := [],
    next_trip_id := 2 }

/-- Store for the C9 witness: a first check with an observation and a
registered token, evaluated once with a failing push transport. -/
def C9Wdb : DB :=
  { routes := [C10Wroute],
    trips := [{ trip_id := 1, route_id := 1, user_email := "u", state := .STARTING }],
    statuses := [⟨5, 4, 4⟩],
    users := [("u", some "tok")],
    stations := [(5, "A")],
    next_trip_id := 2 }

/-- The zero-based index of a station id in a station-id list, as the
spec words it ("index of the focused station within the preference
list"); 0 when absent. -/
def listIndex (x : Nat) : List Nat → Nat
  | [] => 0
  | y :: ys => if y = x then 0 else listIndex x ys + 1

/-- Route for the C8 counterexample: end-station preference
[10, 20, 30] with docks threshold 3. -/
def C8Croute : Route :=
  { route_id := 1, user_email := "u", is_active := true, days_of_week := [0],
    target_time := none, alert_lead_time_minutes := 0,
    start_station_ids := [1], end_station_ids := [10, 20, 30],
    bikes_threshold := 2, docks_threshold := 3 }

/-- Store for the C8 counterexample: station 10 has no observation row;
stations 20 and 30 show 0 and 5 docks. -/
def C8Cdb : DB :=
  { routes := [C8Croute],
    trips := [{ trip_id := 1, route_id := 1, user_email := "u", state := .DOCKING }],
    statuses := [⟨20, 0, 0⟩, ⟨30, 0, 5⟩],
    users := [("u", some "tok")],
    stations := [],
    next_trip_id := 2 }

/-- Route for the C8 witness: the spec's [X, Y, Z] example as stations
[101, 102, 103] with docks threshold 3. -/
def C8Wroute : Route :=
  { route_id := 1, user_email := "u", is_active := true, days_of_week := [0],
    target_time := none, alert_lead_time_minutes := 0,
    start_station_ids := [1], end_station_ids := [101, 102, 103],
    bikes_threshold := 2, docks_threshold := 3 }

/-- Store for the C8 witness: all three end stations observed, with
dock counts [0, 0, 5]. -/
def C8Wdb : DB :=
  { routes := [C8Wroute],
    trips := [{ trip_id := 1, route_id := 1, user_email := "u", state := .DOCKING }],
    statuses := [⟨101, 0, 0⟩, ⟨102, 0, 0⟩, ⟨103, 0, 5⟩],
    users := [("u", some "tok")],
    stations := [],
    next_trip_id := 2 }

/-- The open STARTING trip used by the C7 witness. -/
def C7Wt : Trip :=
  { trip_id := 1, route_id := 1, user_email := "u", state := .STARTING }

/-- Store for the C7 witness: one open STARTING trip owned by "u". -/
def C7Wdb : DB :=
  { routes := [C1Wroute],
    trips := [C7Wt],
    statuses := [⟨7000, 5, 5⟩],
    users := [("u", some "tok")],
    stations := [(7000, "A")],
    next_trip_id := 2 }

/-- Routes for the C4 witness: route 1 targets 09:00 (lead 15), route 2
targets 12:00 (lead 15). -/
def C4Wr1 : Route :=
  { route_id := 1, user_email := "u", is_active := true, days_of_week := [3],
    target_time := some (9, 0), alert_lead_time_minutes := 15,
    start_station_ids := [5], end_station_ids := [6],
    bikes_threshold := 2, docks_threshold := 2 }

/-- Second C4 witness route, outside the window at the witness tick. -/
def C4Wr2 : Route :=
  { route_id := 2, user_email := "v", is_active := true, days_of_week := [3],
    target_time := some (12, 0), alert_lead_time_minutes := 15,
    start_station_ids := [5], end_station_ids := [6],
    bikes_threshold := 2, docks_threshold := 2 }

/-- Store for the C4 witness. -/
def C4Wdb : DB :=
  { routes := [C4Wr1, C4Wr2],
    trips := [],
    statuses := [⟨5, 4, 4⟩],
    users := [("u", some "tok"), ("v", some "tok2")],
    stations := [(5, "A")],
    next_trip_id := 1 }

/-- The C4 witness tick: Wednesday (Python weekday 2, remapped 3), at
08:50. -/
def C4Wtick : Tick := ⟨2, 8, 50, 100⟩

/-- The number of occurrences of a value in a list of trip ids. -/
def countNat (l : List Nat) (n : Nat) : Nat :=
  (l.filter (fun x => decide (x = n))).length

/-- The number of trips rows carrying a given trip id. -/
def tripIdCount (ts : List Trip) (tid : Nat) : Nat :=
  (ts.filter (fun t => decide (t.trip_id = tid))).length

/-- The number of open (non-completed) STARTING trip rows with a given
trip id — the rows the STARTING sweep snapshot would pick up for it. -/
def openStartingCount (ts : List Trip) (tid : Nat) : Nat :=
  (ts.filter (fun t => decide (t.trip_id = tid ∧ t.completed_at = none ∧
    t.state = TripState.STARTING))).length

/-- The number of open DOCKING trip rows with a given trip id. -/
def openDockingCount (ts : List Trip) (tid : Nat) : Nat :=
  (ts.filter (fun t => decide (t.trip_id = tid ∧ t.completed_at = none ∧
    t.state = TripState.DOCKING))).length

/-- First route of the C5 failing input (owner "u", target 09:00,
lead 15). -/
def C5r1 : Route :=
  { route_id := 1, user_email := "u", is_active := true, days_of_week := [3],
    target_time := some (9, 0), alert_lead_time_minutes := 15,
    start_station_ids := [5], end_station_ids := [6],
    bikes_threshold := 2, docks_threshold := 2 }

/-- Second route of the C5 failing input: same owner "u", same window. -/
def C5r2 : Route :=
  { route_id := 2, user_email := "u", is_active := true, days_of_week := [3],
    target_time := some (9, 0), alert_lead_time_minutes := 15,
    start_station_ids := [5], end_station_ids := [6],
    bikes_threshold := 2, docks_threshold := 2 }

/-- Store for the C5 failing input: user "u" owns two eligible routes,
no trips exist. -/
def C5db : DB :=
  { routes := [C5r1, C5r2],
    trips := [],
    statuses := [],
    users := [("u", some "tok")],
    stations := [],
    next_trip_id := 1 }

/-- The C5 tick: the scheduled weekday at 08:50 — both routes are in
their activation window. -/
def C5tick : Tick := ⟨2, 8, 50, 100⟩

/-- Store for the C6 counterexample: one eligible route in its window,
no existing trips. -/
def C6db : DB :=
  { routes := [C5r1],
    trips := [],
    statuses := [⟨5, 4, 4⟩],
    users := [("u", some "tok")],
    stations := [(5, "A")],
    next_trip_id := 1 }

/-- The C6 counterexample tick. -/
def C6tick : Tick := ⟨2, 8, 50, 100⟩

/-! ## Supporting lemmas -/

theorem startScanLoop_some (threshold : Int) (a : Nat) (c : Int) (l : List (Nat × Int)) :
    startScanLoop threshold (some a, c) l =
      match l.find? (fun p => decide (threshold ≤ p.2)) with
      | some p => (some p.1, p.2)
      | none => (some a, c) := by
  induction l with
  | nil => rfl
  | cons p rest ih =>
    obtain ⟨s, n⟩ := p
    rw [startScanLoop]
    simp only [List.find?]
    by_cases h : threshold ≤ n
    · simp [h]
    · simpa [h] using ih

theorem endScanLoop_eq_find (threshold : Int) (l : List (Nat × Int)) :
    endScanLoop threshold l = l.find? (fun p => decide (threshold ≤ p.2)) := by
  induction l with
  | nil => rfl
  | cons p rest ih =>
    obtain ⟨s, n⟩ := p
    rw [endScanLoop]
    simp only [List.find?]
    by_cases h : threshold ≤ n
    · simp [h]
    · simpa [h] using ih

theorem startSelect_eq_spec (threshold : Int) (l : List (Nat × Int)) :
    startSelect threshold l = specFocusSelect threshold l := by
  cases l with
  | nil => rfl
  | cons p rest =>
    obtain ⟨s, n⟩ := p
    rw [startSelect, startScanLoop]
    by_cases h : threshold ≤ n
    · simp [h, specFocusSelect, List.find?]
    · rw [if_neg h, if_pos rfl, startScanLoop_some]
      unfold specFocusSelect
      simp only [List.find?, h, decide_False, Bool.false_eq_true, if_false]

theorem endSelect_eq_spec (threshold : Int) (l : List (Nat × Int)) :
    endSelect threshold l = specFocusSelect threshold l := by
  unfold endSelect specFocusSelect
  rw [endScanLoop_eq_find]
  cases hf : l.find? (fun p => decide (threshold ≤ p.2)) with
  | none => cases l <;> rfl
  | some p => rfl

theorem shouldAlert_same (fsid : Nat) (c : Int) :
    shouldAlert (some fsid) (some c) (some fsid) c = false := by
  simp [shouldAlert]

theorem shouldAlert_none (lc : Option Int) (nf : Option Nat) (nc : Int) :
    shouldAlert none lc nf nc = true := by
  simp [shouldAlert]

theorem sendBikeAlert_ok (db : DB) (email : String) (rid : Nat) (fsid : Nat)
    (cnt thr : Int) (ss : List (Nat × Int)) (e0 tok : String)
    (huser : db.users.find? (fun u => decide (u.1 = email)) = some (e0, some tok))
    (htok : tok ≠ "") :
    ∃ nm, sendBikeAlert db email rid (some fsid) cnt thr ss (Except.ok ()) =
      ([], [Alert.bike tok nm cnt fsid]) := by
  unfold sendBikeAlert
  simp only [huser]
  rw [if_neg htok]
  exact ⟨_, rfl⟩

theorem sendBikeAlert_error (db : DB) (email : String) (rid : Nat) (fsid : Nat)
    (cnt thr : Int) (ss : List (Nat × Int)) (e0 tok e : String)
    (huser : db.users.find? (fun u => decide (u.1 = email)) = some (e0, some tok))
    (htok : tok ≠ "") :
    sendBikeAlert db email rid (some fsid) cnt thr ss (Except.error e) =
      (["[ERROR] Failed to send bike alert to " ++ email ++ ": " ++ e], []) := by
  unfold sendBikeAlert
  simp only [huser]
  rw [if_neg htok]

theorem shouldAlert_new_none (fs : Option Nat) (lc : Option Int) (nc : Int) :
    shouldAlert fs lc none nc = true := by
  cases fs <;> simp [shouldAlert]

theorem startSelect_nil (threshold : Int) : startSelect threshold [] = (none, 0) := rfl

theorem endSelect_nil (threshold : Int) : endSelect threshold [] = (none, 0) := rfl

theorem sendBikeAlert_noFocus (db : DB) (email : String) (rid : Nat) (cnt thr : Int)
    (ss : List (Nat × Int)) (push : PushOutcome) :
    sendBikeAlert db email rid none cnt thr ss push = ([], []) := rfl

theorem sendDockAlert_noFocus (db : DB) (email : String) (rid : Nat) (cnt thr : Int)
    (ss : List (Nat × Int)) (push : PushOutcome) :
    sendDockAlert db email rid none cnt thr ss push = ([], []) := rfl

theorem sendDockAlert_ok (db : DB) (email : String) (rid : Nat) (fsid : Nat)
    (cnt thr : Int) (ss : List (Nat × Int)) (e0 tok : String)
    (huser : db.users.find? (fun u => decide (u.1 = email)) = some (e0, some tok))
    (htok : tok ≠ "") :
    ∃ nm, sendDockAlert db email rid (some fsid) cnt thr ss (Except.ok ()) =
      ([], [Alert.dock tok nm cnt fsid ((alertLevelCalc fsid ss).getD 0)]) := by
  unfold sendDockAlert
  simp only [huser]
  rw [if_neg htok]
  exact ⟨_, rfl⟩

theorem sendBikeAlert_db_trips (db : DB) (ts : List Trip) (email : String) (rid : Nat)
    (fso : Option Nat) (cnt thr : Int) (ss : List (Nat × Int)) (push : PushOutcome) :
    sendBikeAlert { db with trips := ts } email rid fso cnt thr ss push =
      sendBikeAlert db email rid fso cnt thr ss push := rfl

theorem sendDockAlert_db_trips (db : DB) (ts : List Trip) (email : String) (rid : Nat)
    (fso : Option Nat) (cnt thr : Int) (ss : List (Nat × Int)) (push : PushOutcome) :
    sendDockAlert { db with trips := ts } email rid fso cnt thr ss push =
      sendDockAlert db email rid fso cnt thr ss push := rfl

theorem endSelect_mem (threshold : Int) {l : List (Nat × Int)} {f : Nat} {c : Int}
    (h : endSelect threshold l = (some f, c)) : (f, c) ∈ l := by
  unfold endSelect at h
  rw [endScanLoop_eq_find] at h
  cases hf : l.find? (fun p => decide (threshold ≤ p.2)) with
  | some p =>
    rw [hf] at h
    obtain ⟨s, n⟩ := p
    simp only [Prod.mk.injEq, Option.some.injEq] at h
    obtain ⟨h1, h2⟩ := h
    subst h1
    subst h2
    exact List.mem_of_find?_eq_some hf
  | none =>
    rw [hf] at h
    cases l with
    | nil => simp at h
    | cons p rest =>
      obtain ⟨s, n⟩ := p
      simp only [Prod.mk.injEq, Option.some.injEq] at h
      obtain ⟨h1, h2⟩ := h
      subst h1
      subst h2
      exact List.mem_cons_self _ _

theorem stationQuery_total (statuses : List StationStatus) (proj : StationStatus → Int) :
    ∀ ids : List Nat,
      (∀ sid ∈ ids,
        (statuses.find? (fun s => decide (s.station_id = sid))).isSome = true) →
      (stationQuery statuses ids proj).map Prod.fst = ids := by
  intro ids
  induction ids with
  | nil => intro _; rfl
  | cons a l ih =>
    intro h
    have ha := h a (List.mem_cons_self a l)
    obtain ⟨s, hs⟩ := Option.isSome_iff_exists.1 ha
    have hcons : stationQuery statuses (a :: l) proj =
        (a, proj s) :: stationQuery statuses l proj := by
      unfold stationQuery
      exact List.filterMap_cons_some (by rw [hs]; rfl)
    rw [hcons, List.map_cons,
      ih (fun sid hsid => h sid (List.mem_cons_of_mem a hsid))]

theorem alertLevelCalc_eq_listIndex (x : Nat) :
    ∀ l : List (Nat × Int), x ∈ l.map Prod.fst →
      alertLevelCalc x l = some (listIndex x (l.map Prod.fst)) := by
  intro l
  induction l with
  | nil => intro h; simp at h
  | cons p rest ih =>
    intro h
    obtain ⟨a, b⟩ := p
    by_cases hax : a = x
    · subst hax
      simp [alertLevelCalc, listIndex]
    · have hx : x ∈ rest.map Prod.fst := by
        simp only [List.map_cons, List.mem_cons] at h
        rcases h with h | h
        · exact absurd h.symm hax
        · exact h
      simp [alertLevelCalc, listIndex, hax, ih hx]

theorem endTrip_update_fields (ts : List Trip) (tid now : Nat) :
    ∀ t ∈ ts.map (fun t =>
      if t.trip_id = tid then
        { t with state := TripState.COMPLETE, completed_at := some now }
      else t),
      t.trip_id = tid →
        t.state = TripState.COMPLETE ∧ t.completed_at = some now := by
  intro t ht htid
  rcases List.mem_map.1 ht with ⟨t0, _, rfl⟩
  by_cases h : t0.trip_id = tid
  · simp [h]
  · simp only [if_neg h] at htid ⊢
    exact absurd htid h

theorem activateLoop_created_routes (tick : Tick) (push : PushOutcome) :
    ∀ (cs : List Route) (db : DB),
      (activateLoop tick push cs db).created.map Prod.snd =
        (cs.filter (routeInWindow tick)).map (·.route_id) := by
  intro cs
  induction cs with
  | nil => intro db; rfl
  | cons r rest ih =>
    intro db
    by_cases hw : routeInWindow tick r = true
    · rw [activateLoop, if_pos hw]
      simp [List.filter_cons, hw, ih]
    · have hf : routeInWindow tick r = false := by simpa using hw
      rw [activateLoop, if_neg hw]
      simp [List.filter_cons, hf, ih]

theorem sendBikeAlert_error_parts (db : DB) (email : String) (rid : Nat) (fsid : Nat)
    (cnt thr : Int) (ss : List (Nat × Int)) (e0 tok e : String)
    (huser : db.users.find? (fun u => decide (u.1 = email)) = some (e0, some tok))
    (htok : tok ≠ "") :
    (sendBikeAlert db email rid (some fsid) cnt thr ss (Except.error e)).1 =
      ["[ERROR] Failed to send bike alert to " ++ email ++ ": " ++ e] ∧
    (sendBikeAlert db email rid (some fsid) cnt thr ss (Except.error e)).2 = [] := by
  rw [sendBikeAlert_error db email rid fsid cnt thr ss e0 tok e huser htok]
  exact ⟨rfl, rfl⟩

theorem lastChecked_of_mem_touch (ts : List Trip) (tid now : Nat) :
    ∀ t ∈ ts.map (fun t =>
      if t.trip_id = tid then { t with last_checked_at := some now } else t),
      t.trip_id = tid → t.last_checked_at = some now := by
  intro t ht htid
  rcases List.mem_map.1 ht with ⟨t0, _, rfl⟩
  by_cases h : t0.trip_id = tid
  · simp [h]
  · simp only [if_neg h] at htid ⊢
    exact absurd htid h

theorem update_start_fields (ts : List Trip) (tid now : Nat) (nf : Option Nat) (nc : Int) :
    ∀ t ∈ ts.map (fun t =>
      if t.trip_id = tid then
        { t with focused_station_id := nf, last_bike_count := some nc,
                 last_checked_at := some now }
      else t),
      t.trip_id = tid →
        t.focused_station_id = nf ∧ t.last_bike_count = some nc ∧
          t.last_checked_at = some now := by
  intro t ht htid
  rcases List.mem_map.1 ht with ⟨t0, _, rfl⟩
  by_cases h : t0.trip_id = tid
  · simp [h]
  · simp only [if_neg h] at htid ⊢
    exact absurd htid h

theorem update_end_fields (ts : List Trip) (tid now : Nat) (nf : Option Nat) (nc : Int) :
    ∀ t ∈ ts.map (fun t =>
      if t.trip_id = tid then
        { t with focused_station_id := nf, last_dock_count := some nc,
                 last_checked_at := some now }
      else t),
      t.trip_id = tid →
        t.focused_station_id = nf ∧ t.last_dock_count = some nc ∧
          t.last_checked_at = some now := by
  intro t ht htid
  rcases List.mem_map.1 ht with ⟨t0, _, rfl⟩
  by_cases h : t0.trip_id = tid
  · simp [h]
  · simp only [if_neg h] at htid ⊢
    exact absurd htid h

theorem countNat_cons (a : Nat) (l : List Nat) (n : Nat) :
    countNat (a :: l) n = countNat l n + (if a = n then 1 else 0) := by
  by_cases h : a = n <;> simp [countNat, List.filter_cons, h]

theorem countNat_append (l1 l2 : List Nat) (n : Nat) :
    countNat (l1 ++ l2) n = countNat l1 n + countNat l2 n := by
  simp [countNat, List.filter_append]

theorem countNat_eq_zero (l : List Nat) (n : Nat) (h : ∀ x ∈ l, x ≠ n) :
    countNat l n = 0 := by
  simp only [countNat, List.length_eq_zero, List.filter_eq_nil_iff]
  intro a ha
  simpa using h a ha

theorem tripIdCount_cons (a : Trip) (l : List Trip) (tid : Nat) :
    tripIdCount (a :: l) tid =
      tripIdCount l tid + (if a.trip_id = tid then 1 else 0) := by
  by_cases h : a.trip_id = tid <;> simp [tripIdCount, List.filter_cons, h]

theorem openStartingCount_cons (a : Trip) (l : List Trip) (tid : Nat) :
    openStartingCount (a :: l) tid = openStartingCount l tid +
      (if a.trip_id = tid ∧ a.completed_at = none ∧ a.state = TripState.STARTING
        then 1 else 0) := by
  by_cases h : a.trip_id = tid ∧ a.completed_at = none ∧
      a.state = TripState.STARTING <;>
    simp [openStartingCount, List.filter_cons, h]

theorem openDockingCount_cons (a : Trip) (l : List Trip) (tid : Nat) :
    openDockingCount (a :: l) tid = openDockingCount l tid +
      (if a.trip_id = tid ∧ a.completed_at = none ∧ a.state = TripState.DOCKING
        then 1 else 0) := by
  by_cases h : a.trip_id = tid ∧ a.completed_at = none ∧
      a.state = TripState.DOCKING <;>
    simp [openDockingCount, List.filter_cons, h]

theorem tripIdCount_append (l1 l2 : List Trip) (tid : Nat) :
    tripIdCount (l1 ++ l2) tid = tripIdCount l1 tid + tripIdCount l2 tid := by
  simp [tripIdCount, List.filter_append]

theorem openStartingCount_append (l1 l2 : List Trip) (tid : Nat) :
    openStartingCount (l1 ++ l2) tid =
      openStartingCount l1 tid + openStartingCount l2 tid := by
  simp [openStartingCount, List.filter_append]

theorem openDockingCount_append (l1 l2 : List Trip) (tid : Nat) :
    openDockingCount (l1 ++ l2) tid =
      openDockingCount l1 tid + openDockingCount l2 tid := by
  simp [openDockingCount, List.filter_append]

theorem trip_counts_eq_zero (ts : List Trip) (tid : Nat)
    (h : ∀ t ∈ ts, t.trip_id ≠ tid) :
    tripIdCount ts tid = 0 ∧ openStartingCount ts tid = 0 ∧
      openDockingCount ts tid = 0 := by
  induction ts with
  | nil => exact ⟨rfl, rfl, rfl⟩
  | cons a l ih =>
    have ha := h a (List.mem_cons_self a l)
    have ihl := ih (fun t htl => h t (List.mem_cons_of_mem a htl))
    rw [tripIdCount_cons, openStartingCount_cons, openDockingCount_cons,
      ihl.1, ihl.2.1, ihl.2.2]
    simp [ha]

theorem trip_counts_map (ts : List Trip) (f : Trip → Trip)
    (hf : ∀ t, (f t).trip_id = t.trip_id ∧ (f t).state = t.state ∧
      (f t).completed_at = t.completed_at) (tid : Nat) :
    tripIdCount (ts.map f) tid = tripIdCount ts tid ∧
    openStartingCount (ts.map f) tid = openStartingCount ts tid ∧
    openDockingCount (ts.map f) tid = openDockingCount ts tid := by
  induction ts with
  | nil => exact ⟨rfl, rfl, rfl⟩
  | cons a l ih =>
    rw [List.map_cons, tripIdCount_cons, openStartingCount_cons,
      openDockingCount_cons, tripIdCount_cons, openStartingCount_cons,
      openDockingCount_cons, (hf a).1, (hf a).2.1, (hf a).2.2,
      ih.1, ih.2.1, ih.2.2]
    exact ⟨rfl, rfl, rfl⟩

theorem tripIds_map (ts : List Trip) (f : Trip → Trip)
    (hf : ∀ t, (f t).trip_id = t.trip_id) :
    (ts.map f).map (fun t => t.trip_id) = ts.map (fun t => t.trip_id) := by
  induction ts with
  | nil => rfl
  | cons a l ih => simp [hf a, ih]

theorem checkStart_update_preserves (tid0 : Nat) (nf : Option Nat) (nc : Int)
    (now : Nat) :
    ∀ t : Trip, ((if t.trip_id = tid0 then
        { t with focused_station_id := nf, last_bike_count := some nc,
                 last_checked_at := some now }
      else t) : Trip).trip_id = t.trip_id ∧
      ((if t.trip_id = tid0 then
        { t with focused_station_id := nf, last_bike_count := some nc,
                 last_checked_at := some now }
      else t) : Trip).state = t.state ∧
      ((if t.trip_id = tid0 then
        { t with focused_station_id := nf, last_bike_count := some nc,
                 last_checked_at := some now }
      else t) : Trip).completed_at = t.completed_at := by
  intro t
  by_cases h : t.trip_id = tid0 <;> simp [h]

theorem checkEnd_update_preserves (tid0 : Nat) (nf : Option Nat) (nc : Int)
    (now : Nat) :
    ∀ t : Trip, ((if t.trip_id = tid0 then
        { t with focused_station_id := nf, last_dock_count := some nc,
                 last_checked_at := some now }
      else t) : Trip).trip_id = t.trip_id ∧
      ((if t.trip_id = tid0 then
        { t with focused_station_id := nf, last_dock_count := some nc,
                 last_checked_at := some now }
      else t) : Trip).state = t.state ∧
      ((if t.trip_id = tid0 then
        { t with focused_station_id := nf, last_dock_count := some nc,
                 last_checked_at := some now }
      else t) : Trip).completed_at = t.completed_at := by
  intro t
  by_cases h : t.trip_id = tid0 <;> simp [h]

theorem touch_update_preserves (tid0 : Nat) (now : Nat) :
    ∀ t : Trip, ((if t.trip_id = tid0 then
        { t with last_checked_at := some now } else t) : Trip).trip_id = t.trip_id ∧
      ((if t.trip_id = tid0 then
        { t with last_checked_at := some now } else t) : Trip).state = t.state ∧
      ((if t.trip_id = tid0 then
        { t with last_checked_at := some now } else t) : Trip).completed_at =
        t.completed_at := by
  intro t
  by_cases h : t.trip_id = tid0 <;> simp [h]

theorem checkStartStations_shape (db : DB) (tid0 rid : Nat) (email : String)
    (fs : Option Nat) (lc : Option Int) (now : Nat) (push : PushOutcome) :
    (checkStartStations db tid0 rid email fs lc now push).db.routes = db.routes ∧
    (checkStartStations db tid0 rid email fs lc now push).db.next_trip_id =
      db.next_trip_id ∧
    (checkStartStations db tid0 rid email fs lc now push).db.trips.map
      (fun t => t.trip_id) = db.trips.map (fun t => t.trip_id) ∧
    ∀ tid,
      tripIdCount (checkStartStations db tid0 rid email fs lc now push).db.trips
        tid = tripIdCount db.trips tid ∧
      openStartingCount (checkStartStations db tid0 rid email fs lc now
        push).db.trips tid = openStartingCount db.trips tid ∧
      openDockingCount (checkStartStations db tid0 rid email fs lc now
        push).db.trips tid = openDockingCount db.trips tid := by
  unfold checkStartStations
  cases hfind : db.routes.find? (fun r => decide (r.route_id = rid)) with
  | none => exact ⟨rfl, rfl, rfl, fun tid => ⟨rfl, rfl, rfl⟩⟩
  | some r =>
    by_cases hsa : shouldAlert fs lc
        (startSelect r.bikes_threshold
          (stationQuery db.statuses r.start_station_ids (·.num_bikes_available))).1
        (startSelect r.bikes_threshold
          (stationQuery db.statuses r.start_station_ids (·.num_bikes_available))).2 =
        true
    · simp only [hsa, if_true]
      exact ⟨trivial, trivial,
        tripIds_map _ _ (fun t => (checkStart_update_preserves tid0 _ _ now t).1),
        fun tid => trip_counts_map _ _ (checkStart_update_preserves tid0 _ _ now)
          tid⟩
    · have hsa' : shouldAlert fs lc
          (startSelect r.bikes_threshold
            (stationQuery db.statuses r.start_station_ids
              (·.num_bikes_available))).1
          (startSelect r.bikes_threshold
            (stationQuery db.statuses r.start_station_ids
              (·.num_bikes_available))).2 = false := by
        simpa using hsa
      simp only [hsa', Bool.false_eq_true, if_false]
      exact ⟨trivial, trivial,
        tripIds_map _ _ (fun t => (touch_update_preserves tid0 now t).1),
        fun tid => trip_counts_map _ _ (touch_update_preserves tid0 now) tid⟩

theorem checkEndStations_shape (db : DB) (tid0 rid : Nat) (email : String)
    (fs : Option Nat) (lc : Option Int) (now : Nat) (push : PushOutcome) :
    (checkEndStations db tid0 rid email fs lc now push).db.routes = db.routes ∧
    (checkEndStations db tid0 rid email fs lc now push).db.next_trip_id =
      db.next_trip_id ∧
    (checkEndStations db tid0 rid email fs lc now push).db.trips.map
      (fun t => t.trip_id) = db.trips.map (fun t => t.trip_id) ∧
    ∀ tid,
      tripIdCount (checkEndStations db tid0 rid email fs lc now push).db.trips
        tid = tripIdCount db.trips tid ∧
      openStartingCount (checkEndStations db tid0 rid email fs lc now
        push).db.trips tid = openStartingCount db.trips tid ∧
      openDockingCount (checkEndStations db tid0 rid email fs lc now
        push).db.trips tid = openDockingCount db.trips tid := by
  unfold checkEndStations
  cases hfind : db.routes.find? (fun r => decide (r.route_id = rid)) with
  | none => exact ⟨rfl, rfl, rfl, fun tid => ⟨rfl, rfl, rfl⟩⟩
  | some r =>
    by_cases hsa : shouldAlert fs lc
        (endSelect r.docks_threshold
          (stationQuery db.statuses r.end_station_ids (·.num_docks_available))).1
        (endSelect r.docks_threshold
          (stationQuery db.statuses r.end_station_ids (·.num_docks_available))).2 =
        true
    · simp only [hsa, if_true]
      exact ⟨trivial, trivial,
        tripIds_map _ _ (fun t => (checkEnd_update_preserves tid0 _ _ now t).1),
        fun tid => trip_counts_map _ _ (checkEnd_update_preserves tid0 _ _ now)
          tid⟩
    · have hsa' : shouldAlert fs lc
          (endSelect r.docks_threshold
            (stationQuery db.statuses r.end_station_ids
              (·.num_docks_available))).1
          (endSelect r.docks_threshold
            (stationQuery db.statuses r.end_station_ids
              (·.num_docks_available))).2 = false := by
        simpa using hsa
      simp only [hsa', Bool.false_eq_true, if_false]
      exact ⟨trivial, trivial,
        tripIds_map _ _ (fun t => (touch_update_preserves tid0 now t).1),
        fun tid => trip_counts_map _ _ (touch_update_preserves tid0 now) tid⟩

theorem monitorStartLoop_evals (now : Nat) (push : PushOutcome) :
    ∀ (rows : List SweepRow) (db : DB),
      (monitorStartLoop now push rows db).2.1 = rows.map (fun row => row.1) := by
  intro rows
  induction rows with
  | nil => intro db; rfl
  | cons row rest ih =>
    intro db
    obtain ⟨tid, rid, email, fs, lc⟩ := row
    simp [monitorStartLoop, ih]

theorem monitorDockLoop_evals (now : Nat) (push : PushOutcome) :
    ∀ (rows : List SweepRow) (db : DB),
      (monitorDockLoop now push rows db).2.1 = rows.map (fun row => row.1) := by
  intro rows
  induction rows with
  | nil => intro db; rfl
  | cons row rest ih =>
    intro db
    obtain ⟨tid, rid, email, fs, lc⟩ := row
    simp [monitorDockLoop, ih]

theorem monitorStartLoop_counts (now : Nat) (push : PushOutcome) :
    ∀ (rows : List SweepRow) (db : DB) (tid : Nat),
      tripIdCount (monitorStartLoop now push rows db).1.trips tid =
        tripIdCount db.trips tid ∧
      openStartingCount (monitorStartLoop now push rows db).1.trips tid =
        openStartingCount db.trips tid ∧
      openDockingCount (monitorStartLoop now push rows db).1.trips tid =
        openDockingCount db.trips tid := by
  intro rows
  induction rows with
  | nil => intro db tid; exact ⟨rfl, rfl, rfl⟩
  | cons row rest ih =>
    intro db tid
    obtain ⟨tid0, rid, email, fs, lc⟩ := row
    have hshape := (checkStartStations_shape db tid0 rid email fs lc now push).2.2.2
    have hrec := ih (checkStartStations db tid0 rid email fs lc now push).db tid
    rw [monitorStartLoop]
    exact ⟨hrec.1.trans (hshape tid).1, hrec.2.1.trans (hshape tid).2.1,
      hrec.2.2.trans (hshape tid).2.2⟩

theorem monitorDockLoop_counts (now : Nat) (push : PushOutcome) :
    ∀ (rows : List SweepRow) (db : DB) (tid : Nat),
      tripIdCount (monitorDockLoop now push rows db).1.trips tid =
        tripIdCount db.trips tid ∧
      openStartingCount (monitorDockLoop now push rows db).1.trips tid =
        openStartingCount db.trips tid ∧
      openDockingCount (monitorDockLoop now push rows db).1.trips tid =
        openDockingCount db.trips tid := by
  intro rows
  induction rows with
  | nil => intro db tid; exact ⟨rfl, rfl, rfl⟩
  | cons row rest ih =>
    intro db tid
    obtain ⟨tid0, rid, email, fs, lc⟩ := row
    have hshape := (checkEndStations_shape db tid0 rid email fs lc now push).2.2.2
    have hrec := ih (checkEndStations db tid0 rid email fs lc now push).db tid
    rw [monitorDockLoop]
    exact ⟨hrec.1.trans (hshape tid).1, hrec.2.1.trans (hshape tid).2.1,
      hrec.2.2.trans (hshape tid).2.2⟩

theorem countNat_filter_map_tripId (ts : List Trip) (q : Trip → Bool) (tid : Nat) :
    countNat ((ts.filter q).map (fun t => t.trip_id)) tid =
      (ts.filter (fun t => q t && decide (t.trip_id = tid))).length := by
  induction ts with
  | nil => rfl
  | cons a l ih =>
    rw [List.filter_cons, List.filter_cons]
    by_cases hq : q a = true
    · rw [if_pos hq, List.map_cons, countNat_cons, ih]
      by_cases hid : a.trip_id = tid <;> simp [hq, hid, Nat.add_comm]
    · have hq' : q a = false := by simpa using hq
      simp [hq', ih]

theorem startSnapshot_countNat (ts : List Trip) (tid : Nat) :
    countNat ((ts.filter (fun t =>
      decide (t.completed_at = none ∧ t.state = TripState.STARTING))).map
      (fun t => t.trip_id)) tid = openStartingCount ts tid := by
  rw [countNat_filter_map_tripId]
  unfold openStartingCount
  congr 1
  apply List.filter_congr
  intro t _
  by_cases h1 : t.completed_at = none <;> by_cases h2 : t.state = TripState.STARTING
    <;> by_cases h3 : t.trip_id = tid <;> simp [h1, h2, h3]

theorem dockSnapshot_countNat (ts : List Trip) (tid : Nat) :
    countNat ((ts.filter (fun t =>
      decide (t.completed_at = none ∧ t.state = TripState.DOCKING))).map
      (fun t => t.trip_id)) tid = openDockingCount ts tid := by
  rw [countNat_filter_map_tripId]
  unfold openDockingCount
  congr 1
  apply List.filter_congr
  intro t _
  by_cases h1 : t.completed_at = none <;> by_cases h2 : t.state = TripState.DOCKING
    <;> by_cases h3 : t.trip_id = tid <;> simp [h1, h2, h3]

theorem activateLoop_cons_window (tick : Tick) (push : PushOutcome) (r : Route)
    (rest : List Route) (db : DB) (hw : routeInWindow tick r = true) :
    (activateLoop tick push (r :: rest) db).db =
      (activateLoop tick push rest
        (checkStartStations (insertTripDB db r) db.next_trip_id r.route_id
          r.user_email none none tick.timestamp push).db).db ∧
    (activateLoop tick push (r :: rest) db).evals =
      db.next_trip_id ::
        (activateLoop tick push rest
          (checkStartStations (insertTripDB db r) db.next_trip_id r.route_id
            r.user_email none none tick.timestamp push).db).evals ∧
    (activateLoop tick push (r :: rest) db).created =
      (db.next_trip_id, r.route_id) ::
        (activateLoop tick push rest
          (checkStartStations (insertTripDB db r) db.next_trip_id r.route_id
            r.user_email none none tick.timestamp push).db).created := by
  rw [activateLoop, if_pos hw]
  exact ⟨rfl, rfl, rfl⟩

theorem activateLoop_invariant (tick : Tick) (push : PushOutcome) :
    ∀ (cs : List Route) (db : DB),
      (∀ t ∈ db.trips, t.trip_id < db.next_trip_id) →
      (∀ t ∈ (activateLoop tick push cs db).db.trips,
        t.trip_id < (activateLoop tick push cs db).db.next_trip_id) ∧
      db.next_trip_id ≤ (activateLoop tick push cs db).db.next_trip_id ∧
      (∀ n ∈ (activateLoop tick push cs db).evals, db.next_trip_id ≤ n) ∧
      (∀ p ∈ (activateLoop tick push cs db).created,
        db.next_trip_id ≤ p.1 ∧
        countNat (activateLoop tick push cs db).evals p.1 = 1 ∧
        tripIdCount (activateLoop tick push cs db).db.trips p.1 = 1 ∧
        openStartingCount (activateLoop tick push cs db).db.trips p.1 = 1 ∧
        openDockingCount (activateLoop tick push cs db).db.trips p.1 = 0) ∧
      (∀ tid, tid < db.next_trip_id →
        tripIdCount (activateLoop tick push cs db).db.trips tid =
          tripIdCount db.trips tid ∧
        openStartingCount (activateLoop tick push cs db).db.trips tid =
          openStartingCount db.trips tid ∧
        openDockingCount (activateLoop tick push cs db).db.trips tid =
          openDockingCount db.trips tid) := by
  intro cs
  induction cs with
  | nil =>
    intro db hlt
    refine ⟨hlt, Nat.le_refl _, ?_, ?_, fun tid _ => ⟨rfl, rfl, rfl⟩⟩
    · intro n hn
      simp [activateLoop] at hn
    · intro p hp
      simp [activateLoop] at hp
  | cons r rest ih =>
    intro db hlt
    by_cases hw : routeInWindow tick r = true
    · obtain ⟨hDB, hEV, hCR⟩ := activateLoop_cons_window tick push r rest db hw
      have hcshape := checkStartStations_shape (insertTripDB db r) db.next_trip_id
        r.route_id r.user_email none none tick.timestamp push
      have hlt1 : ∀ t ∈ (insertTripDB db r).trips,
          t.trip_id < (insertTripDB db r).next_trip_id := by
        intro t ht
        rcases List.mem_append.1 ht with h | h
        · exact Nat.lt_trans (hlt t h) (Nat.lt_succ_self _)
        · rw [List.mem_singleton] at h
          subst h
          exact Nat.lt_succ_self _
      have hltc : ∀ t ∈ (checkStartStations (insertTripDB db r) db.next_trip_id
          r.route_id r.user_email none none tick.timestamp push).db.trips,
          t.trip_id < (checkStartStations (insertTripDB db r) db.next_trip_id
            r.route_id r.user_email none none tick.timestamp push).db.next_trip_id := by
        intro t ht
        have hmm : t.trip_id ∈ (checkStartStations (insertTripDB db r)
            db.next_trip_id r.route_id r.user_email none none tick.timestamp
            push).db.trips.map (fun t => t.trip_id) :=
          List.mem_map_of_mem _ ht
        rw [hcshape.2.2.1] at hmm
        rcases List.mem_map.1 hmm with ⟨t0, ht0, hid⟩
        rw [hcshape.2.1, ← hid]
        exact hlt1 t0 ht0
      have ih' := ih ((checkStartStations (insertTripDB db r) db.next_trip_id
        r.route_id r.user_email none none tick.timestamp push).db) hltc
      have hnextc : (checkStartStations (insertTripDB db r) db.next_trip_id
          r.route_id r.user_email none none tick.timestamp push).db.next_trip_id =
          db.next_trip_id + 1 := hcshape.2.1
      have hbase0 := trip_counts_eq_zero db.trips db.next_trip_id
        (fun t ht => Nat.ne_of_lt (hlt t ht))
      have hcounts1 : tripIdCount (insertTripDB db r).trips db.next_trip_id = 1 ∧
          openStartingCount (insertTripDB db r).trips db.next_trip_id = 1 ∧
          openDockingCount (insertTripDB db r).trips db.next_trip_id = 0 := by
        refine ⟨?_, ?_, ?_⟩
        · rw [show (insertTripDB db r).trips =
              db.trips ++ [newStartingTrip db r] from rfl,
            tripIdCount_append, hbase0.1]
          simp [tripIdCount, newStartingTrip]
        · rw [show (insertTripDB db r).trips =
              db.trips ++ [newStartingTrip db r] from rfl,
            openStartingCount_append, hbase0.2.1]
          simp [openStartingCount, newStartingTrip]
        · rw [show (insertTripDB db r).trips =
              db.trips ++ [newStartingTrip db r] from rfl,
            openDockingCount_append, hbase0.2.2]
          simp [openDockingCount, newStartingTrip]
      have hcountsC : tripIdCount (checkStartStations (insertTripDB db r)
          db.next_trip_id r.route_id r.user_email none none tick.timestamp
          push).db.trips db.next_trip_id = 1 ∧
          openStartingCount (checkStartStations (insertTripDB db r)
            db.next_trip_id r.route_id r.user_email none none tick.timestamp
            push).db.trips db.next_trip_id = 1 ∧
          openDockingCount (checkStartStations (insertTripDB db r)
            db.next_trip_id r.route_id r.user_email none none tick.timestamp
            push).db.trips db.next_trip_id = 0 := by
        have h4 := hcshape.2.2.2 db.next_trip_id
        exact ⟨h4.1.trans hcounts1.1, h4.2.1.trans hcounts1.2.1,
          h4.2.2.trans hcounts1.2.2⟩
      have hrest := ih'.2.2.2.2 db.next_trip_id
        (by rw [hnextc]; exact Nat.lt_succ_self _)
      refine ⟨?_, ?_, ?_, ?_, ?_⟩
      · rw [hDB]
        exact ih'.1
      · rw [hDB]
        calc db.next_trip_id ≤ db.next_trip_id + 1 := Nat.le_succ _
          _ = _ := hnextc.symm
          _ ≤ _ := ih'.2.1
      · rw [hEV]
        intro n hn
        rcases List.mem_cons.1 hn with rfl | hn
        · exact Nat.le_refl _
        · have hxge := ih'.2.2.1 n hn
          rw [hnextc] at hxge
          exact Nat.le_trans (Nat.le_succ _) hxge
      · rw [hEV, hCR, hDB]
        intro p hp
        rcases List.mem_cons.1 hp with rfl | hp
        · refine ⟨Nat.le_refl _, ?_, hrest.1.trans hcountsC.1,
            hrest.2.1.trans hcountsC.2.1, hrest.2.2.trans hcountsC.2.2⟩
          rw [countNat_cons, countNat_eq_zero _ _ ?z]
          · simp
          case z =>
            intro x hx
            have hxge := ih'.2.2.1 x hx
            rw [hnextc] at hxge
            omega
        · obtain ⟨hge, hcnt, hc1, hc2, hc3⟩ := ih'.2.2.2.1 p hp
          have hge' : db.next_trip_id + 1 ≤ p.1 := by
            rw [← hnextc]
            exact hge
          refine ⟨Nat.le_trans (Nat.le_succ _) hge', ?_, hc1, hc2, hc3⟩
          rw [countNat_cons, if_neg (by omega), hcnt]
      · intro tid' hlt'
        rw [hDB]
        have hpres := ih'.2.2.2.2 tid' (by rw [hnextc]; omega)
        have h4 := hcshape.2.2.2 tid'
        have hne : db.next_trip_id ≠ tid' := by omega
        have hnew : tripIdCount (insertTripDB db r).trips tid' =
            tripIdCount db.trips tid' ∧
            openStartingCount (insertTripDB db r).trips tid' =
              openStartingCount db.trips tid' ∧
            openDockingCount (insertTripDB db r).trips tid' =
              openDockingCount db.trips tid' := by
          refine ⟨?_, ?_, ?_⟩
          · rw [show (insertTripDB db r).trips =
                db.trips ++ [newStartingTrip db r] from rfl, tripIdCount_append]
            simp [tripIdCount, newStartingTrip, hne]
          · rw [show (insertTripDB db r).trips =
                db.trips ++ [newStartingTrip db r] from rfl,
              openStartingCount_append]
            simp [openStartingCount, newStartingTrip, hne]
          · rw [show (insertTripDB db r).trips =
                db.trips ++ [newStartingTrip db r] from rfl,
              openDockingCount_append]
            simp [openDockingCount, newStartingTrip, hne]
        exact ⟨hpres.1.trans (h4.1.trans hnew.1),
          hpres.2.1.trans (h4.2.1.trans hnew.2.1),
          hpres.2.2.trans (h4.2.2.trans hnew.2.2)⟩
    · rw [activateLoop, if_neg hw]
      exact ih db hlt

theorem monitorActiveTrips_evals_count (db : DB) (now : Nat) (push : PushOutcome)
    (tid : Nat) :
    countNat (monitorActiveTrips db now push).evals tid =
      openStartingCount db.trips tid + openDockingCount db.trips tid := by
  unfold monitorActiveTrips
  simp only [monitorStartLoop_evals, monitorDockLoop_evals, countNat_append,
    List.map_map]
  have h1 := startSnapshot_countNat db.trips tid
  have h2 := dockSnapshot_countNat ((monitorStartLoop now push
    ((db.trips.filter (fun t => decide (t.completed_at = none ∧
      t.state = TripState.STARTING))).map (fun t => ((t.trip_id, t.route_id,
      t.user_email, t.focused_station_id, t.last_bike_count) : SweepRow))) db).1).trips
    tid
  have h3 := (monitorStartLoop_counts now push ((db.trips.filter (fun t =>
    decide (t.completed_at = none ∧ t.state = TripState.STARTING))).map
    (fun t => ((t.trip_id, t.route_id, t.user_email, t.focused_station_id,
      t.last_bike_count) : SweepRow))) db tid).2.2
  rw [show ((fun (row : SweepRow) => row.1) ∘ fun t => ((t.trip_id, t.route_id,
      t.user_email, t.focused_station_id, t.last_bike_count) : SweepRow)) =
      (fun t : Trip => t.trip_id) from rfl,
    show ((fun (row : SweepRow) => row.1) ∘ fun t => ((t.trip_id, t.route_id,
      t.user_email, t.focused_station_id, t.last_dock_count) : SweepRow)) =
      (fun t : Trip => t.trip_id) from rfl,
    h1, h2, h3]

/-! ## Claims -/

/-- C3: for every ordered station list with counts and a threshold, the
start-side evaluation selects as focus the first station whose count
meets the threshold, or the first station of the list when none does
(and the stored count is that station's count); the end-side evaluation
selects exactly the same station and count. -/
theorem c3_focus_selection (threshold : Int) (l : List (Nat × Int)) :
    startSelect threshold l = specFocusSelect threshold l ∧
    endSelect threshold l = startSelect threshold l := by
  refine ⟨startSelect_eq_spec threshold l, ?_⟩
  rw [startSelect_eq_spec, endSelect_eq_spec]

/-- C1: when the newly selected focus equals the previously focused
station (non-null) and the newly observed count equals the previously
observed count, the evaluation dispatches no alert and still writes
last_checked_at with the current instant — for the start-station and
the end-station evaluation alike. -/
theorem c1_dedup_no_alert (db : DB) (trip_id route_id : Nat) (user_email : String)
    (fsid : Nat) (c : Int) (now : Nat) (push : PushOutcome) (r : Route)
    (hr : db.routes.find? (fun x => decide (x.route_id = route_id)) = some r) :
    (startSelect r.bikes_threshold
        (stationQuery db.statuses r.start_station_ids (·.num_bikes_available)) =
        (some fsid, c) →
      (checkStartStations db trip_id route_id user_email (some fsid) (some c) now
        push).alerts = [] ∧
      ∀ t ∈ (checkStartStations db trip_id route_id user_email (some fsid) (some c) now
        push).db.trips, t.trip_id = trip_id → t.last_checked_at = some now) ∧
    (endSelect r.docks_threshold
        (stationQuery db.statuses r.end_station_ids (·.num_docks_available)) =
        (some fsid, c) →
      (checkEndStations db trip_id route_id user_email (some fsid) (some c) now
        push).alerts = [] ∧
      ∀ t ∈ (checkEndStations db trip_id route_id user_email (some fsid) (some c) now
        push).db.trips, t.trip_id = trip_id → t.last_checked_at = some now) := by
  constructor
  · intro hsel
    have hres : checkStartStations db trip_id route_id user_email (some fsid) (some c)
        now push =
        ⟨{ db with trips := db.trips.map (fun t =>
          if t.trip_id = trip_id then { t with last_checked_at := some now } else t) },
          [], []⟩ := by
      simp only [checkStartStations, hr, hsel, shouldAlert_same, Bool.false_eq_true,
        if_false]
    rw [hres]
    exact ⟨rfl, lastChecked_of_mem_touch db.trips trip_id now⟩
  · intro hsel
    have hres : checkEndStations db trip_id route_id user_email (some fsid) (some c)
        now push =
        ⟨{ db with trips := db.trips.map (fun t =>
          if t.trip_id = trip_id then { t with last_checked_at := some now } else t) },
          [], []⟩ := by
      simp only [checkEndStations, hr, hsel, shouldAlert_same, Bool.false_eq_true,
        if_false]
    rw [hres]
    exact ⟨rfl, lastChecked_of_mem_touch db.trips trip_id now⟩

/-- C1 witness: focus 7000 with count 5 unchanged on both sides, at
timestamp 42, with the push transport available — no alert either way. -/
theorem c1_dedup_no_alert_witness :
    (checkStartStations C1Wdb 1 1 "u" (some 7000) (some 5) 42
      (Except.ok ())).alerts = [] ∧
    (checkEndStations C1Wdb 1 1 "u" (some 7000) (some 5) 42
      (Except.ok ())).alerts = [] := by
  have h := c1_dedup_no_alert C1Wdb 1 1 "u" 7000 5 42 (Except.ok ()) C1Wroute
    (by decide)
  exact ⟨(h.1 (by decide)).1, (h.2 (by decide)).1⟩

/-- C2 counterexample: a first check (null previous focus) of a trip
whose watched stations have no observation rows dispatches no alert at
all, not exactly one. -/
theorem c2_counterexample :
    ¬ ((checkStartStations C2Cdb 1 1 "u" none none 7
      (Except.ok ())).alerts.length = 1) := by
  decide

/-- C2 amended: a first-check evaluation (null previous focus)
dispatches exactly one alert to the trip owner's device, provided a
focus station is selected from the returned observations and the owner
has a registered non-empty device token and the push transport
succeeds. -/
theorem c2_first_check_one_alert (db : DB) (trip_id route_id : Nat) (email : String)
    (last_bike_count : Option Int) (now : Nat) (r : Route) (fsid : Nat) (c : Int)
    (e0 tok : String)
    (hr : db.routes.find? (fun x => decide (x.route_id = route_id)) = some r)
    (hsel : startSelect r.bikes_threshold
      (stationQuery db.statuses r.start_station_ids (·.num_bikes_available)) =
      (some fsid, c))
    (huser : db.users.find? (fun u => decide (u.1 = email)) = some (e0, some tok))
    (htok : tok ≠ "") :
    (checkStartStations db trip_id route_id email none last_bike_count now
      (Except.ok ())).alerts.length = 1 := by
  simp only [checkStartStations, hr, hsel, shouldAlert_none, if_true]
  obtain ⟨nm, hsend⟩ := sendBikeAlert_ok
    { db with trips := db.trips.map (fun t =>
        if t.trip_id = trip_id then
          { t with focused_station_id := some fsid, last_bike_count := some c,
                   last_checked_at := some now }
        else t) }
    email route_id fsid c r.bikes_threshold
    (stationQuery db.statuses r.start_station_ids (·.num_bikes_available))
    e0 tok huser htok
  simp [hsend]

/-- C2 witness for the amended claim: first check with observations
[(5, 4 bikes), (6, 3 bikes)], threshold 2 and a registered token
dispatches exactly one alert. -/
theorem c2_first_check_one_alert_witness :
    (checkStartStations C2Wdb 1 1 "u" none none 7
      (Except.ok ())).alerts.length = 1 :=
  c2_first_check_one_alert C2Wdb 1 1 "u" none 7 C2Croute 5 4 "u" "tok"
    (by decide) (by decide) (by decide) (by decide)

/-- C10: when no station observations are returned for the route's
list, the selected focus is none with count 0; the trip record is still
updated (null focus, count 0, last_checked_at), no alert is dispatched
— on either side — and the send functions return without dispatching
whenever the focused station is none. -/
theorem c10_no_observations (db : DB) (trip_id route_id : Nat) (email : String)
    (fs : Option Nat) (lc : Option Int) (now : Nat) (push : PushOutcome) (r : Route)
    (hr : db.routes.find? (fun x => decide (x.route_id = route_id)) = some r) :
    (stationQuery db.statuses r.start_station_ids (·.num_bikes_available) = [] →
      (checkStartStations db trip_id route_id email fs lc now push).alerts = [] ∧
      ∀ t ∈ (checkStartStations db trip_id route_id email fs lc now push).db.trips,
        t.trip_id = trip_id → t.focused_station_id = none ∧
          t.last_bike_count = some 0 ∧ t.last_checked_at = some now) ∧
    (stationQuery db.statuses r.end_station_ids (·.num_docks_available) = [] →
      (checkEndStations db trip_id route_id email fs lc now push).alerts = [] ∧
      ∀ t ∈ (checkEndStations db trip_id route_id email fs lc now push).db.trips,
        t.trip_id = trip_id → t.focused_station_id = none ∧
          t.last_dock_count = some 0 ∧ t.last_checked_at = some now) ∧
    (∀ (cnt thr : Int) (ss : List (Nat × Int)),
      sendBikeAlert db email route_id none cnt thr ss push = ([], []) ∧
      sendDockAlert db email route_id none cnt thr ss push = ([], [])) := by
  refine ⟨fun hq => ?_, fun hq => ?_, fun cnt thr ss => ⟨rfl, rfl⟩⟩
  · have hres : checkStartStations db trip_id route_id email fs lc now push =
        ⟨{ db with trips := db.trips.map (fun t =>
          if t.trip_id = trip_id then
            { t with focused_station_id := none, last_bike_count := some 0,
                     last_checked_at := some now }
          else t) }, [], []⟩ := by
      simp only [checkStartStations, hr, hq, startSelect_nil, shouldAlert_new_none,
        if_true, sendBikeAlert_noFocus]
    rw [hres]
    exact ⟨rfl, update_start_fields db.trips trip_id now none 0⟩
  · have hres : checkEndStations db trip_id route_id email fs lc now push =
        ⟨{ db with trips := db.trips.map (fun t =>
          if t.trip_id = trip_id then
            { t with focused_station_id := none, last_dock_count := some 0,
                     last_checked_at := some now }
          else t) }, [], []⟩ := by
      simp only [checkEndStations, hr, hq, endSelect_nil, shouldAlert_new_none,
        if_true, sendDockAlert_noFocus]
    rw [hres]
    exact ⟨rfl, update_end_fields db.trips trip_id now none 0⟩

/-- C10 witness: trip 1 previously focused station 5 with count 3, no
observations left — both evaluations update the trip and dispatch
nothing, and the send functions with a null focus dispatch nothing. -/
theorem c10_no_observations_witness :
    (checkStartStations C10Wdb 1 1 "u" (some 5) (some 3) 7
      (Except.ok ())).alerts = [] ∧
    (checkEndStations C10Wdb 1 1 "u" (some 5) (some 3) 7
      (Except.ok ())).alerts = [] ∧
    sendBikeAlert C10Wdb "u" 1 none 0 2 [] (Except.ok ()) = ([], []) := by
  have h := c10_no_observations C10Wdb 1 1 "u" (some 5) (some 3) 7 (Except.ok ())
    C10Wroute (by decide)
  exact ⟨(h.1 (by decide)).1, (h.2.1 (by decide)).1, (h.2.2 0 2 []).1⟩

/-- C9: once an evaluation has decided to alert, the persisted trip
fields (focus, count, last_checked_at) do not depend on the push
outcome; a transport failure leaves only a log line and no dispatched
alert, and the evaluation still returns normally. -/
theorem c9_persist_despite_push_failure (db : DB) (trip_id route_id : Nat)
    (email : String) (fs : Option Nat) (lc : Option Int) (now : Nat) (r : Route)
    (f : Nat) (e0 tok : String)
    (hr : db.routes.find? (fun x => decide (x.route_id = route_id)) = some r)
    (hsa : shouldAlert fs lc
      (startSelect r.bikes_threshold
        (stationQuery db.statuses r.start_station_ids (·.num_bikes_available))).1
      (startSelect r.bikes_threshold
        (stationQuery db.statuses r.start_station_ids (·.num_bikes_available))).2 =
      true)
    (hfs : (startSelect r.bikes_threshold
      (stationQuery db.statuses r.start_station_ids (·.num_bikes_available))).1 =
      some f)
    (huser : db.users.find? (fun u => decide (u.1 = email)) = some (e0, some tok))
    (htok : tok ≠ "") :
    (∀ push, (checkStartStations db trip_id route_id email fs lc now push).db =
      (checkStartStations db trip_id route_id email fs lc now (Except.ok ())).db) ∧
    (∀ push, ∀ t ∈ (checkStartStations db trip_id route_id email fs lc now
        push).db.trips,
      t.trip_id = trip_id →
        t.focused_station_id = (startSelect r.bikes_threshold
          (stationQuery db.statuses r.start_station_ids (·.num_bikes_available))).1 ∧
        t.last_bike_count = some (startSelect r.bikes_threshold
          (stationQuery db.statuses r.start_station_ids (·.num_bikes_available))).2 ∧
        t.last_checked_at = some now) ∧
    (∀ e, (checkStartStations db trip_id route_id email fs lc now
        (Except.error e)).alerts = [] ∧
      (checkStartStations db trip_id route_id email fs lc now (Except.error e)).logs =
        ["[ERROR] Failed to send bike alert to " ++ email ++ ": " ++ e]) := by
  refine ⟨fun push => ?_, fun push => ?_, fun e => ?_⟩
  · simp only [checkStartStations, hr, hsa, if_true]
  · simp only [checkStartStations, hr, hsa, if_true]
    exact update_start_fields db.trips trip_id now _ _
  · have hsa' : shouldAlert fs lc (some f)
        (startSelect r.bikes_threshold
          (stationQuery db.statuses r.start_station_ids (·.num_bikes_available))).2 =
        true := by
      rw [← hfs]
      exact hsa
    simp only [checkStartStations, hr, hfs, hsa', if_true, sendBikeAlert_db_trips]
    constructor
    · exact (sendBikeAlert_error_parts db email route_id f _ r.bikes_threshold _
        e0 tok e huser htok).2
    · exact (sendBikeAlert_error_parts db email route_id f _ r.bikes_threshold _
        e0 tok e huser htok).1

/-- C9 witness: first-check alert decision with a failing transport:
the store equals the success-case store, fields are persisted, the
failure is only logged. -/
theorem c9_persist_despite_push_failure_witness :
    (checkStartStations C9Wdb 1 1 "u" none none 7 (Except.error "boom")).db =
      (checkStartStations C9Wdb 1 1 "u" none none 7 (Except.ok ())).db ∧
    (checkStartStations C9Wdb 1 1 "u" none none 7 (Except.error "boom")).alerts = [] ∧
    (checkStartStations C9Wdb 1 1 "u" none none 7 (Except.error "boom")).logs =
      ["[ERROR] Failed to send bike alert to u: boom"] := by
  have h := c9_persist_despite_push_failure C9Wdb 1 1 "u" none none 7 C10Wroute 5
    "u" "tok" (by decide) (by decide) (by decide) (by decide) (by decide)
  exact ⟨h.1 (Except.error "boom"), (h.2.2 "boom").1, (h.2.2 "boom").2⟩

/-- C8 counterexample: end list [10, 20, 30] with station 10 unobserved
and docks [0, 5] at stations 20 and 30, threshold 3: the dispatched
alert focuses station 30, whose index in the original preference list
is 2, yet the alert level is not 2 (it is 1, the index in the
observation list). -/
theorem c8_counterexample :
    (checkEndStations C8Cdb 1 1 "u" none none 9 (Except.ok ())).alerts.map
      alertStation = [30] ∧
    listIndex 30 C8Croute.end_station_ids = 2 ∧
    ¬ ((checkEndStations C8Cdb 1 1 "u" none none 9 (Except.ok ())).alerts.map
      alertLevel = [listIndex 30 C8Croute.end_station_ids]) := by
  decide

/-- C8 amended: for every end-station evaluation that dispatches a dock
alert — whatever the previous focused station and count, provided the
alert decision fires — the alert level equals the zero-based index of
the focused station within the ordered observation list (the preference
list restricted to stations having a status row); whenever every
station of the preference list is observed, this equals the index
within the original preference list. -/
theorem c8_alert_level_observation_index (db : DB) (trip_id route_id : Nat)
    (email : String) (focused_station_id : Option Nat)
    (last_dock_count : Option Int) (now : Nat) (r : Route)
    (f : Nat) (c : Int) (e0 tok : String)
    (hr : db.routes.find? (fun x => decide (x.route_id = route_id)) = some r)
    (hsel : endSelect r.docks_threshold
      (stationQuery db.statuses r.end_station_ids (·.num_docks_available)) =
      (some f, c))
    (hsa : shouldAlert focused_station_id last_dock_count (some f) c = true)
    (huser : db.users.find? (fun u => decide (u.1 = email)) = some (e0, some tok))
    (htok : tok ≠ "") :
    (checkEndStations db trip_id route_id email focused_station_id
      last_dock_count now (Except.ok ())).alerts.map alertLevel =
      [listIndex f ((stationQuery db.statuses r.end_station_ids
        (·.num_docks_available)).map Prod.fst)] ∧
    ((∀ sid ∈ r.end_station_ids,
        (db.statuses.find? (fun s => decide (s.station_id = sid))).isSome = true) →
      (checkEndStations db trip_id route_id email focused_station_id
        last_dock_count now (Except.ok ())).alerts.map alertLevel =
        [listIndex f r.end_station_ids]) := by
  have hmem : (f, c) ∈ stationQuery db.statuses r.end_station_ids
      (·.num_docks_available) := endSelect_mem r.docks_threshold hsel
  have hidx := alertLevelCalc_eq_listIndex f _ (List.mem_map_of_mem Prod.fst hmem)
  obtain ⟨nm, hsend⟩ := sendDockAlert_ok db email route_id f c r.docks_threshold
    (stationQuery db.statuses r.end_station_ids (·.num_docks_available))
    e0 tok huser htok
  have hmap : (checkEndStations db trip_id route_id email focused_station_id
      last_dock_count now (Except.ok ())).alerts.map alertLevel =
      [listIndex f ((stationQuery db.statuses r.end_station_ids
        (·.num_docks_available)).map Prod.fst)] := by
    simp only [checkEndStations, hr, hsel, hsa, if_true,
      sendDockAlert_db_trips, hsend]
    simp [alertLevel, hidx]
  exact ⟨hmap, fun htotal => by
    rw [hmap, stationQuery_total db.statuses (·.num_docks_available)
      r.end_station_ids htotal]⟩

/-- C8 witness for the amended claim, on a change-triggered dispatch
(previous focus station 101 with count 0, not a first check): stations
[101, 102, 103] with docks [0, 0, 5] and threshold 3 — the focus moves
to station 103 and the dispatched dock alert has level 2. -/
theorem c8_alert_level_witness :
    (checkEndStations C8Wdb 1 1 "u" (some 101) (some 0) 9
      (Except.ok ())).alerts.map alertLevel = [2] ∧
    (checkEndStations C8Wdb 1 1 "u" (some 101) (some 0) 9
      (Except.ok ())).alerts.map alertStation = [103] := by
  have h := c8_alert_level_observation_index C8Wdb 1 1 "u" (some 101) (some 0) 9
    C8Wroute 103 5 "u" "tok" (by decide) (by decide) (by decide) (by decide)
    (by decide)
  exact ⟨(h.2 (by decide)).trans (by decide), by decide⟩

/-- C7: for a caller's open trip, ending the trip succeeds from any
non-completed state (including STARTING), setting state COMPLETE and
completed_at; entering the docking zone from a STARTING trip fails with
an invalid-state-transition error reporting "STARTING"; and both
operations fail with NotFound when no open trip matches the id and
caller. -/
theorem c7_lifecycle (db : DB) (trip_id : Nat) (caller : String) (now : Nat)
    (location : LocationUpdate) (push : PushOutcome) :
    (∀ t, findOpenTrip db trip_id caller = some t →
      (∃ db', endTrip db trip_id caller now = .ok (db', "COMPLETE") ∧
        ∀ t' ∈ db'.trips, t'.trip_id = trip_id →
          t'.state = TripState.COMPLETE ∧ t'.completed_at = some now) ∧
      (t.state = TripState.STARTING →
        enterDockingZone db trip_id location caller now push =
          .error (.invalidStateTransition "STARTING"))) ∧
    (findOpenTrip db trip_id caller = none →
      endTrip db trip_id caller now = .error .notFound ∧
      enterDockingZone db trip_id location caller now push = .error .notFound) := by
  constructor
  · intro t ht
    constructor
    · refine ⟨{ db with trips := db.trips.map (fun t =>
        if t.trip_id = trip_id then
          { t with state := TripState.COMPLETE, completed_at := some now }
        else t) }, ?_, ?_⟩
      · unfold endTrip
        rw [ht]
      · exact endTrip_update_fields db.trips trip_id now
    · intro hst
      unfold enterDockingZone
      rw [ht]
      simp [hst, stateName]
  · intro hnone
    constructor
    · unfold endTrip
      rw [hnone]
    · unfold enterDockingZone
      rw [hnone]

/-- C7 witness: on a store with one open STARTING trip (id 1, owner
"u"): ending trip 1 succeeds with state COMPLETE, entering the docking
zone on trip 1 fails reporting "STARTING", and both operations on the
non-existent trip 2 fail with NotFound. -/
theorem c7_lifecycle_witness :
    (endTrip C7Wdb 1 "u" 50).map Prod.snd = Except.ok "COMPLETE" ∧
    enterDockingZone C7Wdb 1 ⟨10, 20⟩ "u" 50 (Except.ok ()) =
      .error (.invalidStateTransition "STARTING") ∧
    endTrip C7Wdb 2 "u" 50 = .error .notFound ∧
    enterDockingZone C7Wdb 2 ⟨10, 20⟩ "u" 50 (Except.ok ()) = .error .notFound := by
  have h1 := (c7_lifecycle C7Wdb 1 "u" 50 ⟨10, 20⟩ (Except.ok ())).1 C7Wt (by decide)
  have h2 := (c7_lifecycle C7Wdb 2 "u" 50 ⟨10, 20⟩ (Except.ok ())).2 (by decide)
  obtain ⟨⟨db', hok, _⟩, hdock⟩ := h1
  refine ⟨?_, hdock (by decide), h2.1, h2.2⟩
  rw [hok]
  rfl

/-- C4: a candidate route (active, scheduled today, target set, owner
without an open trip at query time) is activated — a trip for it is
created — exactly when alert_minutes <= current_minutes <
target_minutes + 60, with alert_minutes = target_minutes - lead and
minutes counted since midnight. -/
theorem c4_activation_window (db : DB) (tick : Tick) (push : PushOutcome) (r : Route)
    (h m : Nat)
    (hnd : (db.routes.map (·.route_id)).Nodup)
    (hlt : ∀ t ∈ db.trips, t.trip_id < db.next_trip_id)
    (hc : r ∈ activationCandidates db tick)
    (ht : r.target_time = some (h, m)) :
    (r.route_id ∈ (activateScheduledRoutes db tick push).created.map Prod.snd ↔
      (((h : Int) * 60 + m) - r.alert_lead_time_minutes ≤
          (tick.hour : Int) * 60 + tick.minute ∧
        (tick.hour : Int) * 60 + tick.minute < ((h : Int) * 60 + m) + 60)) ∧
    ∀ p ∈ (activateScheduledRoutes db tick push).created,
      openStartingCount (activateScheduledRoutes db tick push).db.trips p.1 = 1 := by
  refine ⟨?_, fun p hp =>
    ((activateLoop_invariant tick push (activationCandidates db tick) db
      hlt).2.2.2.1 p hp).2.2.2.1⟩
  unfold activateScheduledRoutes
  rw [activateLoop_created_routes]
  have hwin : routeInWindow tick r = true ↔
      (((h : Int) * 60 + m) - r.alert_lead_time_minutes ≤
          (tick.hour : Int) * 60 + tick.minute ∧
        (tick.hour : Int) * 60 + tick.minute < ((h : Int) * 60 + m) + 60) := by
    rw [routeInWindow, ht]
    simp
  constructor
  · intro hmem
    rcases List.mem_map.1 hmem with ⟨r', hr', hid⟩
    have hr'f : r' ∈ activationCandidates db tick := List.mem_of_mem_filter hr'
    have hr'w : routeInWindow tick r' = true := List.of_mem_filter hr'
    have hrl : r ∈ db.routes := List.mem_of_mem_filter hc
    have hr'l : r' ∈ db.routes := List.mem_of_mem_filter hr'f
    have : r' = r := List.inj_on_of_nodup_map hnd hr'l hrl hid
    subst this
    exact hwin.1 hr'w
  · intro harith
    exact List.mem_map.2 ⟨r, List.mem_filter.2 ⟨hc, hwin.2 harith⟩, rfl⟩

/-- C4 witness: at 08:50 on the scheduled weekday, route 1 (target
09:00, lead 15, window 08:45-09:59) is activated and route 2 (target
12:00, lead 15) is not. -/
theorem c4_activation_window_witness :
    1 ∈ (activateScheduledRoutes C4Wdb C4Wtick (Except.ok ())).created.map
      Prod.snd ∧
    ¬ (2 ∈ (activateScheduledRoutes C4Wdb C4Wtick (Except.ok ())).created.map
      Prod.snd) ∧
    openStartingCount (activateScheduledRoutes C4Wdb C4Wtick
      (Except.ok ())).db.trips 1 = 1 := by
  refine ⟨?_, ?_,
    (c4_activation_window C4Wdb C4Wtick (Except.ok ()) C4Wr1 9 0 (by decide)
      (by decide) (by decide) (by decide)).2 (1, 1) (by decide)⟩
  · exact ((c4_activation_window C4Wdb C4Wtick (Except.ok ()) C4Wr1 9 0 (by decide)
      (by decide) (by decide) (by decide)).1).2 (by decide)
  · intro hmem
    have := ((c4_activation_window C4Wdb C4Wtick (Except.ok ()) C4Wr2 12 0
      (by decide) (by decide) (by decide) (by decide)).1).1 hmem
    revert this
    decide

/-- C5: evaluating the heartbeat on the failing input — user "u" owns
two active routes both inside their activation window, with no open
trip beforehand — ends the tick with two non-completed trips for "u":
the candidate query checks "no open trip" only once, before the loop,
so the second route is activated although the first activation just
created an open trip for the same user. -/
theorem c5_two_open_trips_after_tick :
    ((heartbeat C5db C5tick (Except.ok ())).db.trips.filter (fun t =>
      decide (t.user_email = "u" ∧ t.completed_at = none))).length = 2 ∧
    (heartbeat C5db C5tick (Except.ok ())).activated = 2 := by
  decide

/-- C6 counterexample: on a tick that activates one route (creating
trip 1), trip 1 is not evaluated exactly once during the tick — the
activation phase evaluates it and the sweep phase of the same tick
evaluates it again. -/
theorem c6_counterexample :
    (heartbeat C6db C6tick (Except.ok ())).created = [(1, 1)] ∧
    ¬ (countNat (heartbeat C6db C6tick (Except.ok ())).evals 1 = 1) := by
  decide

/-- C6 amended: within one heartbeat tick, every trip created by the
activation phase is evaluated exactly twice — once by the activation
phase itself and once more by the sweep phase of the same tick, which
picks the freshly created open STARTING trip up again (assuming
existing trip ids are below the id sequence, as the store guarantees). -/
theorem c6_created_evaluated_twice (db : DB) (tick : Tick) (push : PushOutcome)
    (hlt : ∀ t ∈ db.trips, t.trip_id < db.next_trip_id) :
    ∀ p ∈ (heartbeat db tick push).created,
      countNat (heartbeat db tick push).evals p.1 = 2 := by
  intro p hp
  have hcr : (heartbeat db tick push).created =
      (activateLoop tick push (activationCandidates db tick) db).created := rfl
  have hev : (heartbeat db tick push).evals =
      (activateLoop tick push (activationCandidates db tick) db).evals ++
      (monitorActiveTrips (activateLoop tick push (activationCandidates db tick)
        db).db tick.timestamp push).evals := rfl
  rw [hcr] at hp
  rw [hev, countNat_append]
  have inv := activateLoop_invariant tick push (activationCandidates db tick) db hlt
  obtain ⟨hge, hcnt, hc1, hc2, hc3⟩ := inv.2.2.2.1 p hp
  rw [hcnt, monitorActiveTrips_evals_count, hc2, hc3]

/-- C6 witness for the amended claim: the tick that activates route 1
creates trip 1 and evaluates it exactly twice. -/
theorem c6_created_evaluated_twice_witness :
    (1, 1) ∈ (heartbeat C6db C6tick (Except.ok ())).created ∧
    countNat (heartbeat C6db C6tick (Except.ok ())).evals 1 = 2 := by
  refine ⟨by decide, ?_⟩
  exact c6_created_evaluated_twice C6db C6tick (Except.ok ()) (by decide) (1, 1)
    (by decide)

end BikeShare
